import Mathlib

/-!
Shallow embedding of `czkawka_gui/src/taskbar_progress_win.rs`: the
`TaskbarProgress` struct wrapping the Windows `ITaskbarList3` taskbar
progress indicator, together with its operations `set_progress_state`,
`set_progress_value`, `hide`, `show`, `release` and the `From<HWND>`
constructor.

Modelling choices:
* `HWND` becomes `Option Nat` (`none` is the null pointer).
* The `*mut ITaskbarList3` pointer is abstracted to the `Bool` field
  `taskbar_list` recording whether the pointer is non-null; the identity
  of the COM object is irrelevant to the state machine.
* `TBPFLAG` constants keep their winapi numeric values.
* Remote COM calls are external: the HRESULT a call would return is a
  parameter (`remoteResult`), and every call actually issued is recorded
  in a returned `List RemoteCall` trace, so "no remote call is issued"
  is the statement that the trace is empty.
* `cfg!(test)` is the parameter `cfgTest`.
* `debug_assert!(completed <= total)` aborts the program on violation;
  `set_progress_value` therefore returns `Option`, with `none` for the
  assertion failure.
-/

namespace Czkawka

/-- `TBPF_NOPROGRESS` from `winapi::um::shobjidl_core`. -/
def TBPF_NOPROGRESS : Nat := 0

/-- `TBPF_INDETERMINATE` from `winapi::um::shobjidl_core`. -/
def TBPF_INDETERMINATE : Nat := 1

/-- `TBPF_NORMAL` from `winapi::um::shobjidl_core`. -/
def TBPF_NORMAL : Nat := 2

/-- `TBPF_ERROR` from `winapi::um::shobjidl_core`. -/
def TBPF_ERROR : Nat := 4

/-- `TBPF_PAUSED` from `winapi::um::shobjidl_core`. -/
def TBPF_PAUSED : Nat := 8

/-- HRESULT `S_OK`. -/
def S_OK : Int := 0

/-- HRESULT `E_POINTER` (`0x80004003` as a signed 32-bit value). -/
def E_POINTER : Int := -2147467261

/-- A remote call issued through the COM interface (or the COM base API). -/
inductive RemoteCall where
  /-- `ITaskbarList3::SetProgressState(hwnd, flags)` -/
  | stateCall (hwnd : Option Nat) (flags : Nat)
  /-- `ITaskbarList3::SetProgressValue(hwnd, completed, total)` -/
  | valueCall (hwnd : Option Nat) (completed : Nat) (total : Nat)
  /-- `IUnknown::Release` on the taskbar list pointer -/
  | releaseCall
  /-- `CoUninitialize()` -/
  | uninitCall
deriving DecidableEq, Repr

/-- The `TaskbarProgress` struct of `taskbar_progress_win.rs`. -/
structure TaskbarProgress where
  hwnd : Option Nat
  taskbar_list : Bool
  current_state : Nat
  current_progress : Nat × Nat
  must_uninit_com : Bool
  is_active : Bool
deriving DecidableEq, Repr

namespace TaskbarProgress

/-- `TaskbarProgress::set_progress_state`.  `remoteResult` is the HRESULT
`ITaskbarList3::SetProgressState` would return if it is reached; the
second component of the result is the trace of remote calls issued. -/
def set_progress_state (cfgTest : Bool) (remoteResult : Int)
    (self : TaskbarProgress) (tbp_flags : Nat) :
    TaskbarProgress × List RemoteCall :=
  if tbp_flags = self.current_state ∨ self.is_active = false then
    (self, [])
  else
    let rc : Int × List RemoteCall :=
      if self.taskbar_list then
        (remoteResult, [RemoteCall.stateCall self.hwnd tbp_flags])
      else if cfgTest then
        (S_OK, [])
      else
        (E_POINTER, [])
    if rc.1 = S_OK then
      ({ self with current_state := tbp_flags }, rc.2)
    else
      (self, rc.2)

/-- `TaskbarProgress::set_progress_value`.  `none` models the
`debug_assert!(completed <= total)` failure; `remoteResult` is the
HRESULT `ITaskbarList3::SetProgressValue` would return if reached. -/
def set_progress_value (cfgTest : Bool) (remoteResult : Int)
    (self : TaskbarProgress) (completed total : Nat) :
    Option (TaskbarProgress × List RemoteCall) :=
  if total < completed then
    none
  else if ((completed, total) = self.current_progress ∧
        self.current_state ≠ TBPF_NOPROGRESS ∧
        self.current_state ≠ TBPF_INDETERMINATE) ∨
      self.is_active = false then
    some (self, [])
  else
    let rc : Int × List RemoteCall :=
      if self.taskbar_list then
        (remoteResult, [RemoteCall.valueCall self.hwnd completed total])
      else if cfgTest then
        (S_OK, [])
      else
        (E_POINTER, [])
    if rc.1 = S_OK then
      some ({ self with
                current_progress := (completed, total),
                current_state :=
                  if self.current_state = TBPF_NOPROGRESS ∨
                      self.current_state = TBPF_INDETERMINATE then
                    TBPF_NORMAL
                  else
                    self.current_state }, rc.2)
    else
      some (self, rc.2)

/-- `TaskbarProgress::hide`. -/
def hide (cfgTest : Bool) (remoteResult : Int) (self : TaskbarProgress) :
    TaskbarProgress × List RemoteCall :=
  let r := set_progress_state cfgTest remoteResult self TBPF_NOPROGRESS
  ({ r.1 with is_active := false }, r.2)

/-- `TaskbarProgress::show` (named `show_` because `show` is a Lean keyword). -/
def show_ (self : TaskbarProgress) : TaskbarProgress × List RemoteCall :=
  ({ self with is_active := true }, [])

/-- `TaskbarProgress::release`. -/
def release (self : TaskbarProgress) : TaskbarProgress × List RemoteCall :=
  let r1 : TaskbarProgress × List RemoteCall :=
    if self.taskbar_list then
      ({ self with taskbar_list := false, hwnd := none },
       [RemoteCall.releaseCall])
    else
      (self, [])
  if r1.1.must_uninit_com then
    ({ r1.1 with must_uninit_com := false }, r1.2 ++ [RemoteCall.uninitCall])
  else
    r1

end TaskbarProgress

/-- `<TaskbarProgress as From<HWND>>::from`.  `init_result` is the HRESULT
of `CoInitializeEx`; `activated` records whether `CoCreateInstance`
produced a non-null `ITaskbarList3` pointer. -/
def fromHWND (hwnd : Option Nat) (init_result : Int) (activated : Bool) :
    TaskbarProgress :=
  match hwnd with
  | none =>
    { hwnd := none
      taskbar_list := false
      current_state := TBPF_NOPROGRESS
      current_progress := (0, 0)
      must_uninit_com := false
      is_active := false }
  | some w =>
    if init_result < 0 then
      { hwnd := none
        taskbar_list := false
        current_state := TBPF_NOPROGRESS
        current_progress := (0, 0)
        must_uninit_com := false
        is_active := false }
    else
      { hwnd := if activated then some w else none
        taskbar_list := activated
        current_state := TBPF_NOPROGRESS
        current_progress := (0, 0)
        must_uninit_com := true
        is_active := false }

/-- The fully-disabled terminal handle produced by construction from the
null window sentinel or after a `CoInitializeEx` failure. -/
def inert_handle : TaskbarProgress :=
  { hwnd := none
    taskbar_list := false
    current_state := TBPF_NOPROGRESS
    current_progress := (0, 0)
    must_uninit_com := false
    is_active := false }

/-- The window identifier is non-null only when the remote indicator is
held. -/
def hwnd_inv (s : TaskbarProgress) : Prop :=
  s.hwnd ≠ none → s.taskbar_list = true

instance (s : TaskbarProgress) : Decidable (hwnd_inv s) := by
  unfold hwnd_inv; infer_instance

/-! ### Branch lemmas for the two state-machine operations -/

theorem e_pointer_ne_s_ok : E_POINTER ≠ S_OK := by decide

theorem state_noop (c : Bool) (r : Int) (s : TaskbarProgress) (f : Nat)
    (h1 : f = s.current_state ∨ s.is_active = false) :
    TaskbarProgress.set_progress_state c r s f = (s, []) := by
  unfold TaskbarProgress.set_progress_state
  rw [if_pos h1]

theorem state_call_ok (c : Bool) (s : TaskbarProgress) (f : Nat)
    (h1 : ¬(f = s.current_state ∨ s.is_active = false))
    (h2 : s.taskbar_list = true) :
    TaskbarProgress.set_progress_state c S_OK s f =
      ({ s with current_state := f }, [RemoteCall.stateCall s.hwnd f]) := by
  unfold TaskbarProgress.set_progress_state
  rw [if_neg h1]
  simp [h2]

theorem state_call_fail (c : Bool) (r : Int) (s : TaskbarProgress) (f : Nat)
    (h1 : ¬(f = s.current_state ∨ s.is_active = false))
    (h2 : s.taskbar_list = true) (h3 : r ≠ S_OK) :
    TaskbarProgress.set_progress_state c r s f =
      (s, [RemoteCall.stateCall s.hwnd f]) := by
  unfold TaskbarProgress.set_progress_state
  rw [if_neg h1]
  simp [h2, h3]

theorem state_absent_test (r : Int) (s : TaskbarProgress) (f : Nat)
    (h1 : ¬(f = s.current_state ∨ s.is_active = false))
    (h2 : s.taskbar_list = false) :
    TaskbarProgress.set_progress_state true r s f =
      ({ s with current_state := f }, []) := by
  unfold TaskbarProgress.set_progress_state
  rw [if_neg h1]
  simp [h2]

theorem state_absent_prod (r : Int) (s : TaskbarProgress) (f : Nat)
    (h1 : ¬(f = s.current_state ∨ s.is_active = false))
    (h2 : s.taskbar_list = false) :
    TaskbarProgress.set_progress_state false r s f = (s, []) := by
  unfold TaskbarProgress.set_progress_state
  rw [if_neg h1]
  simp [h2, e_pointer_ne_s_ok]

theorem value_assert_fail (c : Bool) (r : Int) (s : TaskbarProgress)
    (completed total : Nat) (h : total < completed) :
    TaskbarProgress.set_progress_value c r s completed total = none := by
  unfold TaskbarProgress.set_progress_value
  rw [if_pos h]

/-- The commit performed by `set_progress_value` on an `S_OK` result. -/
def value_commit (s : TaskbarProgress) (completed total : Nat) :
    TaskbarProgress :=
  { s with
      current_progress := (completed, total),
      current_state :=
        if s.current_state = TBPF_NOPROGRESS ∨
            s.current_state = TBPF_INDETERMINATE then
          TBPF_NORMAL
        else
          s.current_state }

theorem value_noop (c : Bool) (r : Int) (s : TaskbarProgress)
    (completed total : Nat) (hct : ¬total < completed)
    (h1 : ((completed, total) = s.current_progress ∧
        s.current_state ≠ TBPF_NOPROGRESS ∧
        s.current_state ≠ TBPF_INDETERMINATE) ∨
      s.is_active = false) :
    TaskbarProgress.set_progress_value c r s completed total = some (s, []) := by
  unfold TaskbarProgress.set_progress_value
  rw [if_neg hct, if_pos h1]

theorem value_call_ok (c : Bool) (s : TaskbarProgress)
    (completed total : Nat) (hct : ¬total < completed)
    (h1 : ¬(((completed, total) = s.current_progress ∧
        s.current_state ≠ TBPF_NOPROGRESS ∧
        s.current_state ≠ TBPF_INDETERMINATE) ∨
      s.is_active = false))
    (h2 : s.taskbar_list = true) :
    TaskbarProgress.set_progress_value c S_OK s completed total =
      some (value_commit s completed total,
        [RemoteCall.valueCall s.hwnd completed total]) := by
  unfold TaskbarProgress.set_progress_value value_commit
  rw [if_neg hct, if_neg h1]
  simp [h2]

theorem value_call_fail (c : Bool) (r : Int) (s : TaskbarProgress)
    (completed total : Nat) (hct : ¬total < completed)
    (h1 : ¬(((completed, total) = s.current_progress ∧
        s.current_state ≠ TBPF_NOPROGRESS ∧
        s.current_state ≠ TBPF_INDETERMINATE) ∨
      s.is_active = false))
    (h2 : s.taskbar_list = true) (h3 : r ≠ S_OK) :
    TaskbarProgress.set_progress_value c r s completed total =
      some (s, [RemoteCall.valueCall s.hwnd completed total]) := by
  unfold TaskbarProgress.set_progress_value
  rw [if_neg hct, if_neg h1]
  simp [h2, h3]

theorem value_absent_test (r : Int) (s : TaskbarProgress)
    (completed total : Nat) (hct : ¬total < completed)
    (h1 : ¬(((completed, total) = s.current_progress ∧
        s.current_state ≠ TBPF_NOPROGRESS ∧
        s.current_state ≠ TBPF_INDETERMINATE) ∨
      s.is_active = false))
    (h2 : s.taskbar_list = false) :
    TaskbarProgress.set_progress_value true r s completed total =
      some (value_commit s completed total, []) := by
  unfold TaskbarProgress.set_progress_value value_commit
  rw [if_neg hct, if_neg h1]
  simp [h2]

theorem value_absent_prod (r : Int) (s : TaskbarProgress)
    (completed total : Nat) (hct : ¬total < completed)
    (h1 : ¬(((completed, total) = s.current_progress ∧
        s.current_state ≠ TBPF_NOPROGRESS ∧
        s.current_state ≠ TBPF_INDETERMINATE) ∨
      s.is_active = false))
    (h2 : s.taskbar_list = false) :
    TaskbarProgress.set_progress_value false r s completed total =
      some (s, []) := by
  unfold TaskbarProgress.set_progress_value
  rw [if_neg hct, if_neg h1]
  simp [h2, e_pointer_ne_s_ok]

/-! ### Field-preservation helpers -/

theorem state_preserves_fields (c : Bool) (r : Int) (s : TaskbarProgress)
    (f : Nat) :
    (TaskbarProgress.set_progress_state c r s f).1.hwnd = s.hwnd ∧
    (TaskbarProgress.set_progress_state c r s f).1.taskbar_list =
      s.taskbar_list ∧
    (TaskbarProgress.set_progress_state c r s f).1.must_uninit_com =
      s.must_uninit_com ∧
    (TaskbarProgress.set_progress_state c r s f).1.is_active = s.is_active ∧
    (TaskbarProgress.set_progress_state c r s f).1.current_progress =
      s.current_progress := by
  by_cases h1 : f = s.current_state ∨ s.is_active = false
  · rw [state_noop c r s f h1]
    exact ⟨rfl, rfl, rfl, rfl, rfl⟩
  · rcases Bool.eq_false_or_eq_true s.taskbar_list with h2 | h2
    · by_cases h3 : r = S_OK
      · subst h3
        rw [state_call_ok c s f h1 h2]
        exact ⟨rfl, rfl, rfl, rfl, rfl⟩
      · rw [state_call_fail c r s f h1 h2 h3]
        exact ⟨rfl, rfl, rfl, rfl, rfl⟩
    · cases c
      · rw [state_absent_prod r s f h1 h2]
        exact ⟨rfl, rfl, rfl, rfl, rfl⟩
      · rw [state_absent_test r s f h1 h2]
        exact ⟨rfl, rfl, rfl, rfl, rfl⟩

theorem value_preserves_fields (c : Bool) (r : Int) (s : TaskbarProgress)
    (completed total : Nat) (hct : ¬total < completed) :
    ((TaskbarProgress.set_progress_value c r s completed total).getD
        (s, [])).1.hwnd = s.hwnd ∧
    ((TaskbarProgress.set_progress_value c r s completed total).getD
        (s, [])).1.taskbar_list = s.taskbar_list ∧
    ((TaskbarProgress.set_progress_value c r s completed total).getD
        (s, [])).1.must_uninit_com = s.must_uninit_com ∧
    ((TaskbarProgress.set_progress_value c r s completed total).getD
        (s, [])).1.is_active = s.is_active := by
  by_cases h1 : ((completed, total) = s.current_progress ∧
      s.current_state ≠ TBPF_NOPROGRESS ∧
      s.current_state ≠ TBPF_INDETERMINATE) ∨ s.is_active = false
  · rw [value_noop c r s completed total hct h1]
    exact ⟨rfl, rfl, rfl, rfl⟩
  · rcases Bool.eq_false_or_eq_true s.taskbar_list with h2 | h2
    · by_cases h3 : r = S_OK
      · subst h3
        rw [value_call_ok c s completed total hct h1 h2]
        exact ⟨rfl, rfl, rfl, rfl⟩
      · rw [value_call_fail c r s completed total hct h1 h2 h3]
        exact ⟨rfl, rfl, rfl, rfl⟩
    · cases c
      · rw [value_absent_prod r s completed total hct h1 h2]
        exact ⟨rfl, rfl, rfl, rfl⟩
      · rw [value_absent_test r s completed total hct h1 h2]
        exact ⟨rfl, rfl, rfl, rfl⟩

theorem value_isSome (c : Bool) (r : Int) (s : TaskbarProgress)
    (completed total : Nat) (hct : ¬total < completed) :
    (TaskbarProgress.set_progress_value c r s completed total).isSome =
      true := by
  by_cases h1 : ((completed, total) = s.current_progress ∧
      s.current_state ≠ TBPF_NOPROGRESS ∧
      s.current_state ≠ TBPF_INDETERMINATE) ∨ s.is_active = false
  · rw [value_noop c r s completed total hct h1]; rfl
  · rcases Bool.eq_false_or_eq_true s.taskbar_list with h2 | h2
    · by_cases h3 : r = S_OK
      · subst h3; rw [value_call_ok c s completed total hct h1 h2]; rfl
      · rw [value_call_fail c r s completed total hct h1 h2 h3]; rfl
    · cases c
      · rw [value_absent_prod r s completed total hct h1 h2]; rfl
      · rw [value_absent_test r s completed total hct h1 h2]; rfl

theorem state_absent_no_calls (c : Bool) (r : Int) (s : TaskbarProgress)
    (f : Nat) (h2 : s.taskbar_list = false) :
    (TaskbarProgress.set_progress_state c r s f).2 = [] := by
  by_cases h1 : f = s.current_state ∨ s.is_active = false
  · rw [state_noop c r s f h1]
  · cases c
    · rw [state_absent_prod r s f h1 h2]
    · rw [state_absent_test r s f h1 h2]

theorem state_absent_prod_eq (r : Int) (s : TaskbarProgress) (f : Nat)
    (h2 : s.taskbar_list = false) :
    TaskbarProgress.set_progress_state false r s f = (s, []) := by
  by_cases h1 : f = s.current_state ∨ s.is_active = false
  · exact state_noop false r s f h1
  · exact state_absent_prod r s f h1 h2

theorem value_absent_no_calls (c : Bool) (r : Int) (s : TaskbarProgress)
    (completed total : Nat) (hct : ¬total < completed)
    (h2 : s.taskbar_list = false) :
    ((TaskbarProgress.set_progress_value c r s completed total).getD
        (s, [])).2 = [] := by
  by_cases h1 : ((completed, total) = s.current_progress ∧
      s.current_state ≠ TBPF_NOPROGRESS ∧
      s.current_state ≠ TBPF_INDETERMINATE) ∨ s.is_active = false
  · rw [value_noop c r s completed total hct h1]; rfl
  · cases c
    · rw [value_absent_prod r s completed total hct h1 h2]; rfl
    · rw [value_absent_test r s completed total hct h1 h2]; rfl

theorem value_absent_prod_eq (r : Int) (s : TaskbarProgress)
    (completed total : Nat) (hct : ¬total < completed)
    (h2 : s.taskbar_list = false) :
    TaskbarProgress.set_progress_value false r s completed total =
      some (s, []) := by
  by_cases h1 : ((completed, total) = s.current_progress ∧
      s.current_state ≠ TBPF_NOPROGRESS ∧
      s.current_state ≠ TBPF_INDETERMINATE) ∨ s.is_active = false
  · exact value_noop false r s completed total hct h1
  · exact value_absent_prod r s completed total hct h1 h2

theorem value_commit_state_facts (s : TaskbarProgress)
    (completed total : Nat) :
    (value_commit s completed total).current_progress =
      (completed, total) ∧
    ((s.current_state = TBPF_NOPROGRESS ∨
        s.current_state = TBPF_INDETERMINATE) →
      (value_commit s completed total).current_state = TBPF_NORMAL) ∧
    (s.current_state = TBPF_PAUSED →
      (value_commit s completed total).current_state = TBPF_PAUSED) ∧
    (s.current_state = TBPF_ERROR →
      (value_commit s completed total).current_state = TBPF_ERROR) := by
  refine ⟨rfl, ?_, ?_, ?_⟩
  · intro hcase
    simp [value_commit, hcase]
  · intro hp
    simp [value_commit, hp, TBPF_PAUSED, TBPF_NOPROGRESS,
      TBPF_INDETERMINATE]
  · intro he
    simp [value_commit, he, TBPF_ERROR, TBPF_NOPROGRESS,
      TBPF_INDETERMINATE]

theorem release_preserves_inv (s : TaskbarProgress) (hinv : hwnd_inv s) :
    hwnd_inv (TaskbarProgress.release s).1 := by
  unfold hwnd_inv at hinv ⊢
  rcases Bool.eq_false_or_eq_true s.taskbar_list with h1 | h1
  · intro hne
    have hres : (TaskbarProgress.release s).1.hwnd = none := by
      rcases Bool.eq_false_or_eq_true s.must_uninit_com with h2 | h2 <;>
        simp [TaskbarProgress.release, h1, h2]
    exact absurd hres hne
  · intro hne
    have hfields : (TaskbarProgress.release s).1.taskbar_list =
        s.taskbar_list ∧ (TaskbarProgress.release s).1.hwnd = s.hwnd := by
      rcases Bool.eq_false_or_eq_true s.must_uninit_com with h2 | h2 <;>
        simp [TaskbarProgress.release, h1, h2]
    rw [hfields.1]
    exact hinv (by rw [← hfields.2]; exact hne)

/-! ### Claim theorems -/

/-- C1: while `is_active` is false, `set_progress_state` and
`set_progress_value` issue no remote call and leave `current_state` /
`current_progress` (and the whole handle) unchanged; `show` only flips
`is_active` and issues no remote call, and `hide` issues exactly the
remote calls of its internal NO_PROGRESS state reset — which, on an
inactive handle, is none at all. -/
theorem inactive_gate_no_remote (cfgTest : Bool) (remoteResult : Int)
    (s s2 : TaskbarProgress) (flags completed total : Nat)
    (hinact : s.is_active = false) (hct : completed ≤ total) :
    TaskbarProgress.set_progress_state cfgTest remoteResult s flags =
      (s, []) ∧
    TaskbarProgress.set_progress_value cfgTest remoteResult s completed
      total = some (s, []) ∧
    TaskbarProgress.show_ s2 = ({ s2 with is_active := true }, []) ∧
    (TaskbarProgress.hide cfgTest remoteResult s2).2 =
      (TaskbarProgress.set_progress_state cfgTest remoteResult s2
        TBPF_NOPROGRESS).2 ∧
    (TaskbarProgress.hide cfgTest remoteResult s).2 = [] := by
  refine ⟨state_noop cfgTest remoteResult s flags (Or.inr hinact),
    value_noop cfgTest remoteResult s completed total
      (Nat.not_lt.mpr hct) (Or.inr hinact), rfl, rfl, ?_⟩
  show (TaskbarProgress.set_progress_state cfgTest remoteResult s
    TBPF_NOPROGRESS).2 = []
  rw [state_noop cfgTest remoteResult s TBPF_NOPROGRESS (Or.inr hinact)]

theorem inactive_gate_no_remote_witness :
    ((fromHWND (some 1) 0 true).is_active = false ∧ (3 : Nat) ≤ 5) ∧
    (TaskbarProgress.set_progress_state false 0 (fromHWND (some 1) 0 true)
        TBPF_NORMAL = (fromHWND (some 1) 0 true, []) ∧
      TaskbarProgress.set_progress_value false 0 (fromHWND (some 1) 0 true)
        3 5 = some (fromHWND (some 1) 0 true, []) ∧
      TaskbarProgress.show_ (TaskbarProgress.show_
          (fromHWND (some 1) 0 true)).1 =
        ({ (TaskbarProgress.show_ (fromHWND (some 1) 0 true)).1 with
            is_active := true }, []) ∧
      (TaskbarProgress.hide false 0 (TaskbarProgress.show_
          (fromHWND (some 1) 0 true)).1).2 =
        (TaskbarProgress.set_progress_state false 0 (TaskbarProgress.show_
          (fromHWND (some 1) 0 true)).1 TBPF_NOPROGRESS).2 ∧
      (TaskbarProgress.hide false 0 (fromHWND (some 1) 0 true)).2 = []) :=
  ⟨⟨by decide, by decide⟩,
    inactive_gate_no_remote false 0 (fromHWND (some 1) 0 true)
      (TaskbarProgress.show_ (fromHWND (some 1) 0 true)).1
      TBPF_NORMAL 3 5 (by decide) (by decide)⟩

/-- C3: `set_progress_value` with `completed > total` aborts through the
`debug_assert` (modelled as `none`) before any gate check or remote
call, for every handle and configuration. -/
theorem value_contract_violation_fatal (cfgTest : Bool)
    (remoteResult : Int) (s : TaskbarProgress) (completed total : Nat)
    (h : total < completed) :
    TaskbarProgress.set_progress_value cfgTest remoteResult s completed
      total = none :=
  value_assert_fail cfgTest remoteResult s completed total h

theorem value_contract_violation_fatal_witness :
    (7 : Nat) < 15 ∧
    TaskbarProgress.set_progress_value false 0
      (TaskbarProgress.show_ (fromHWND (some 1) 0 true)).1 15 7 = none :=
  ⟨by decide,
    value_contract_violation_fatal false 0
      (TaskbarProgress.show_ (fromHWND (some 1) 0 true)).1 15 7
      (by decide)⟩

/-- C5: `release` is idempotent — after one call the indicator pointer
and COM-ownership flag are cleared (and the window identifier is nulled
whenever an indicator was held), and a second call is a no-op issuing no
remote call and leaving the handle unchanged. -/
theorem release_idempotent_noop (s : TaskbarProgress) :
    TaskbarProgress.release (TaskbarProgress.release s).1 =
      ((TaskbarProgress.release s).1, []) ∧
    (TaskbarProgress.release s).1.taskbar_list = false ∧
    (TaskbarProgress.release s).1.must_uninit_com = false ∧
    (s.taskbar_list = true → (TaskbarProgress.release s).1.hwnd = none) := by
  rcases Bool.eq_false_or_eq_true s.taskbar_list with h1 | h1 <;>
    rcases Bool.eq_false_or_eq_true s.must_uninit_com with h2 | h2 <;>
      simp [TaskbarProgress.release, h1, h2]

theorem release_idempotent_noop_witness :
    TaskbarProgress.release
        (TaskbarProgress.release (fromHWND (some 1) 0 true)).1 =
      ((TaskbarProgress.release (fromHWND (some 1) 0 true)).1, []) ∧
    (TaskbarProgress.release (fromHWND (some 1) 0 true)).1.taskbar_list =
      false ∧
    (TaskbarProgress.release
      (fromHWND (some 1) 0 true)).1.must_uninit_com = false ∧
    ((fromHWND (some 1) 0 true).taskbar_list = true →
      (TaskbarProgress.release (fromHWND (some 1) 0 true)).1.hwnd =
        none) :=
  release_idempotent_noop (fromHWND (some 1) 0 true)

/-- C8: when `CoInitializeEx` succeeds (non-negative HRESULT) but
`CoCreateInstance` leaves the indicator pointer null, the constructed
handle still records COM ownership while holding no indicator and a
nulled window identifier. -/
theorem activation_failure_keeps_session (w : Nat) (i : Int)
    (h : 0 ≤ i) :
    fromHWND (some w) i false =
      { hwnd := none
        taskbar_list := false
        current_state := TBPF_NOPROGRESS
        current_progress := (0, 0)
        must_uninit_com := true
        is_active := false } := by
  simp only [fromHWND]
  rw [if_neg (Int.not_lt.mpr h)]
  rfl

theorem activation_failure_keeps_session_witness :
    (0 : Int) ≤ 0 ∧
    fromHWND (some 1) 0 false =
      { hwnd := none
        taskbar_list := false
        current_state := TBPF_NOPROGRESS
        current_progress := (0, 0)
        must_uninit_com := true
        is_active := false } :=
  ⟨by decide, activation_failure_keeps_session 1 0 (by decide)⟩

/-- C9: `hide` is exactly the NO_PROGRESS reset through the normal
`set_progress_state` path followed by deactivation, after which both
state and value requests are ignored; `show` only sets `is_active`,
changing no cached state and issuing no remote call. -/
theorem hide_show_contract (cfgTest : Bool) (remoteResult : Int)
    (s : TaskbarProgress) (flags completed total : Nat)
    (hct : completed ≤ total) :
    TaskbarProgress.hide cfgTest remoteResult s =
      ({ (TaskbarProgress.set_progress_state cfgTest remoteResult s
            TBPF_NOPROGRESS).1 with is_active := false },
        (TaskbarProgress.set_progress_state cfgTest remoteResult s
          TBPF_NOPROGRESS).2) ∧
    (TaskbarProgress.hide cfgTest remoteResult s).1.is_active = false ∧
    TaskbarProgress.set_progress_state cfgTest remoteResult
        (TaskbarProgress.hide cfgTest remoteResult s).1 flags =
      ((TaskbarProgress.hide cfgTest remoteResult s).1, []) ∧
    TaskbarProgress.set_progress_value cfgTest remoteResult
        (TaskbarProgress.hide cfgTest remoteResult s).1 completed total =
      some ((TaskbarProgress.hide cfgTest remoteResult s).1, []) ∧
    TaskbarProgress.show_ s = ({ s with is_active := true }, []) ∧
    (TaskbarProgress.show_ s).1.current_state = s.current_state ∧
    (TaskbarProgress.show_ s).2 = [] :=
  ⟨rfl, rfl,
    state_noop cfgTest remoteResult _ flags (Or.inr rfl),
    value_noop cfgTest remoteResult _ completed total
      (Nat.not_lt.mpr hct) (Or.inr rfl),
    rfl, rfl, rfl⟩

theorem hide_show_contract_witness :
    (3 : Nat) ≤ 5 ∧
    (TaskbarProgress.hide false 7
        (TaskbarProgress.show_ (fromHWND (some 1) 0 true)).1 =
      ({ (TaskbarProgress.set_progress_state false 7 (TaskbarProgress.show_
            (fromHWND (some 1) 0 true)).1 TBPF_NOPROGRESS).1 with
          is_active := false },
        (TaskbarProgress.set_progress_state false 7 (TaskbarProgress.show_
          (fromHWND (some 1) 0 true)).1 TBPF_NOPROGRESS).2) ∧
    (TaskbarProgress.hide false 7 (TaskbarProgress.show_
        (fromHWND (some 1) 0 true)).1).1.is_active = false ∧
    TaskbarProgress.set_progress_state false 7
        (TaskbarProgress.hide false 7 (TaskbarProgress.show_
          (fromHWND (some 1) 0 true)).1).1 TBPF_NORMAL =
      ((TaskbarProgress.hide false 7 (TaskbarProgress.show_
        (fromHWND (some 1) 0 true)).1).1, []) ∧
    TaskbarProgress.set_progress_value false 7
        (TaskbarProgress.hide false 7 (TaskbarProgress.show_
          (fromHWND (some 1) 0 true)).1).1 3 5 =
      some ((TaskbarProgress.hide false 7 (TaskbarProgress.show_
        (fromHWND (some 1) 0 true)).1).1, []) ∧
    TaskbarProgress.show_ (TaskbarProgress.show_
        (fromHWND (some 1) 0 true)).1 =
      ({ (TaskbarProgress.show_ (fromHWND (some 1) 0 true)).1 with
          is_active := true }, []) ∧
    (TaskbarProgress.show_ (TaskbarProgress.show_
        (fromHWND (some 1) 0 true)).1).1.current_state =
      (TaskbarProgress.show_ (fromHWND (some 1) 0 true)).1.current_state ∧
    (TaskbarProgress.show_ (TaskbarProgress.show_
        (fromHWND (some 1) 0 true)).1).2 = []) :=
  ⟨by decide,
    hide_show_contract false 7
      (TaskbarProgress.show_ (fromHWND (some 1) 0 true)).1
      TBPF_NORMAL 3 5 (by decide)⟩

/-- C2: on an active handle, a `set_progress_value(completed, total)`
call whose effective result is `S_OK` commits `(completed, total)` into
`current_progress`; NO_PROGRESS and INDETERMINATE states are promoted to
NORMAL, while PAUSED and ERROR are left untouched. -/
theorem value_success_commit (cfgTest : Bool) (remoteResult : Int)
    (s : TaskbarProgress) (completed total : Nat)
    (hact : s.is_active = true) (hct : completed ≤ total)
    (hok : (if s.taskbar_list then remoteResult
        else if cfgTest then S_OK else E_POINTER) = S_OK) :
    ∃ s2 calls,
      TaskbarProgress.set_progress_value cfgTest remoteResult s completed
        total = some (s2, calls) ∧
      s2.current_progress = (completed, total) ∧
      ((s.current_state = TBPF_NOPROGRESS ∨
          s.current_state = TBPF_INDETERMINATE) →
        s2.current_state = TBPF_NORMAL) ∧
      (s.current_state = TBPF_PAUSED →
        s2.current_state = TBPF_PAUSED) ∧
      (s.current_state = TBPF_ERROR →
        s2.current_state = TBPF_ERROR) := by
  have hct' : ¬total < completed := Nat.not_lt.mpr hct
  by_cases h1 : ((completed, total) = s.current_progress ∧
      s.current_state ≠ TBPF_NOPROGRESS ∧
      s.current_state ≠ TBPF_INDETERMINATE) ∨ s.is_active = false
  · rcases h1 with ⟨heq, hnp, hind⟩ | hin
    · refine ⟨s, [],
        value_noop cfgTest remoteResult s completed total hct'
          (Or.inl ⟨heq, hnp, hind⟩),
        heq.symm, ?_, fun hp => hp, fun he => he⟩
      intro hcase
      rcases hcase with hc | hc
      · exact absurd hc hnp
      · exact absurd hc hind
    · rw [hact] at hin
      exact Bool.noConfusion hin
  · rcases Bool.eq_false_or_eq_true s.taskbar_list with h2 | h2
    · simp only [h2, if_true] at hok
      subst hok
      exact ⟨value_commit s completed total,
        [RemoteCall.valueCall s.hwnd completed total],
        value_call_ok cfgTest s completed total hct' h1 h2,
        value_commit_state_facts s completed total⟩
    · simp only [h2] at hok
      rcases Bool.eq_false_or_eq_true cfgTest with hc | hc
      · subst hc
        exact ⟨value_commit s completed total, [],
          value_absent_test remoteResult s completed total hct' h1 h2,
          value_commit_state_facts s completed total⟩
      · subst hc
        simp at hok
        exact absurd hok e_pointer_ne_s_ok

theorem value_success_commit_witness :
    ((TaskbarProgress.show_ (fromHWND (some 1) 0 true)).1.is_active =
        true ∧ (13 : Nat) ≤ 12345 ∧
      (if (TaskbarProgress.show_ (fromHWND (some 1) 0 true)).1.taskbar_list
          then (0 : Int) else if false then S_OK else E_POINTER) = S_OK) ∧
    (∃ s2 calls,
      TaskbarProgress.set_progress_value false 0
        (TaskbarProgress.show_ (fromHWND (some 1) 0 true)).1 13 12345 =
        some (s2, calls) ∧
      s2.current_progress = (13, 12345) ∧
      (((TaskbarProgress.show_ (fromHWND (some 1) 0 true)).1.current_state =
          TBPF_NOPROGRESS ∨
        (TaskbarProgress.show_
          (fromHWND (some 1) 0 true)).1.current_state =
          TBPF_INDETERMINATE) →
        s2.current_state = TBPF_NORMAL) ∧
      ((TaskbarProgress.show_ (fromHWND (some 1) 0 true)).1.current_state =
          TBPF_PAUSED → s2.current_state = TBPF_PAUSED) ∧
      ((TaskbarProgress.show_ (fromHWND (some 1) 0 true)).1.current_state =
          TBPF_ERROR → s2.current_state = TBPF_ERROR)) :=
  ⟨⟨by decide, by decide, by decide⟩,
    value_success_commit false 0
      (TaskbarProgress.show_ (fromHWND (some 1) 0 true)).1 13 12345
      (by decide) (by decide) (by decide)⟩

/-- C4 counterexample: an active handle without a remote indicator (in
the non-test configuration) turns a request for a genuinely different
state into a silent no-op — no remote call and no mutation — even though
the requested state differs from `current_state` and the handle is
active, refuting the claimed "no-op exactly when `new_state` equals
`current_state` or `is_active` is false". -/
theorem state_noop_iff_counterexample :
    TaskbarProgress.set_progress_state false 0
        (TaskbarProgress.show_ (fromHWND (some 1) 0 false)).1
        TBPF_NORMAL =
      ((TaskbarProgress.show_ (fromHWND (some 1) 0 false)).1, []) ∧
    ¬TBPF_NORMAL =
      (TaskbarProgress.show_
        (fromHWND (some 1) 0 false)).1.current_state ∧
    (TaskbarProgress.show_ (fromHWND (some 1) 0 false)).1.is_active =
      true := by decide

/-- C4 (amended): for every handle that holds the remote indicator,
`set_progress_state(new_state)` is a no-op (no remote call, no
mutation) when `new_state` equals `current_state` or `is_active` is
false; otherwise it issues the remote `SetProgressState` call and
commits `new_state` into `current_state` exactly on an `S_OK`
acknowledgment, leaving the handle unchanged on failure. -/
theorem state_characterization_with_indicator (cfgTest : Bool)
    (remoteResult : Int) (s : TaskbarProgress) (flags : Nat)
    (hlist : s.taskbar_list = true) :
    ((flags = s.current_state ∨ s.is_active = false) →
      TaskbarProgress.set_progress_state cfgTest remoteResult s flags =
        (s, [])) ∧
    (¬(flags = s.current_state ∨ s.is_active = false) →
      (TaskbarProgress.set_progress_state cfgTest remoteResult s
          flags).2 = [RemoteCall.stateCall s.hwnd flags] ∧
      (remoteResult = S_OK →
        (TaskbarProgress.set_progress_state cfgTest remoteResult s
            flags).1 = { s with current_state := flags }) ∧
      (remoteResult ≠ S_OK →
        (TaskbarProgress.set_progress_state cfgTest remoteResult s
            flags).1 = s)) := by
  refine ⟨fun h1 => state_noop cfgTest remoteResult s flags h1,
    fun h1 => ?_⟩
  by_cases h3 : remoteResult = S_OK
  · subst h3
    rw [state_call_ok cfgTest s flags h1 hlist]
    exact ⟨rfl, fun _ => rfl, fun hne => absurd rfl hne⟩
  · rw [state_call_fail cfgTest remoteResult s flags h1 hlist h3]
    exact ⟨rfl, fun he => absurd he h3, fun _ => rfl⟩

theorem state_characterization_with_indicator_witness :
    (TaskbarProgress.show_ (fromHWND (some 1) 0 true)).1.taskbar_list =
      true ∧
    (((TBPF_NORMAL =
        (TaskbarProgress.show_
          (fromHWND (some 1) 0 true)).1.current_state ∨
      (TaskbarProgress.show_ (fromHWND (some 1) 0 true)).1.is_active =
        false) →
      TaskbarProgress.set_progress_state false 0
          (TaskbarProgress.show_ (fromHWND (some 1) 0 true)).1
          TBPF_NORMAL =
        ((TaskbarProgress.show_ (fromHWND (some 1) 0 true)).1, [])) ∧
    (¬(TBPF_NORMAL =
        (TaskbarProgress.show_
          (fromHWND (some 1) 0 true)).1.current_state ∨
      (TaskbarProgress.show_ (fromHWND (some 1) 0 true)).1.is_active =
        false) →
      (TaskbarProgress.set_progress_state false 0
          (TaskbarProgress.show_ (fromHWND (some 1) 0 true)).1
          TBPF_NORMAL).2 =
        [RemoteCall.stateCall
          (TaskbarProgress.show_ (fromHWND (some 1) 0 true)).1.hwnd
          TBPF_NORMAL] ∧
      ((0 : Int) = S_OK →
        (TaskbarProgress.set_progress_state false 0
            (TaskbarProgress.show_ (fromHWND (some 1) 0 true)).1
            TBPF_NORMAL).1 =
          { (TaskbarProgress.show_ (fromHWND (some 1) 0 true)).1 with
              current_state := TBPF_NORMAL }) ∧
      ((0 : Int) ≠ S_OK →
        (TaskbarProgress.set_progress_state false 0
            (TaskbarProgress.show_ (fromHWND (some 1) 0 true)).1
            TBPF_NORMAL).1 =
          (TaskbarProgress.show_ (fromHWND (some 1) 0 true)).1))) :=
  ⟨by decide,
    state_characterization_with_indicator false 0
      (TaskbarProgress.show_ (fromHWND (some 1) 0 true)).1 TBPF_NORMAL
      (by decide)⟩

/-- C6: construction from the null window sentinel, or with a negative
`CoInitializeEx` result, yields the fully-disabled terminal handle (no
indicator, inactive, session not owned, state NO_PROGRESS, value (0,0),
null window), and on any handle without an indicator and without COM
ownership every operation issues no remote call, surfaces no error, in
the non-test configuration mutates nothing, and keeps the handle
indicator-free and ownership-free. -/
theorem disabled_terminal_inert (w : Nat) (i : Int) (act cfgTest : Bool)
    (r : Int) (s : TaskbarProgress) (flags completed total : Nat)
    (hneg : i < 0) (hs1 : s.taskbar_list = false)
    (hs2 : s.must_uninit_com = false) (hct : completed ≤ total) :
    fromHWND none i act = inert_handle ∧
    fromHWND (some w) i act = inert_handle ∧
    inert_handle =
      { hwnd := none
        taskbar_list := false
        current_state := TBPF_NOPROGRESS
        current_progress := (0, 0)
        must_uninit_com := false
        is_active := false } ∧
    (TaskbarProgress.set_progress_state cfgTest r s flags).2 = [] ∧
    (TaskbarProgress.set_progress_state false r s flags).1 = s ∧
    (TaskbarProgress.set_progress_state cfgTest r s
      flags).1.taskbar_list = false ∧
    (TaskbarProgress.set_progress_state cfgTest r s
      flags).1.must_uninit_com = false ∧
    ((TaskbarProgress.set_progress_value cfgTest r s completed
        total).getD (s, [])).2 = [] ∧
    TaskbarProgress.set_progress_value false r s completed total =
      some (s, []) ∧
    ((TaskbarProgress.set_progress_value cfgTest r s completed
        total).getD (s, [])).1.taskbar_list = false ∧
    ((TaskbarProgress.set_progress_value cfgTest r s completed
        total).getD (s, [])).1.must_uninit_com = false ∧
    (TaskbarProgress.hide cfgTest r s).2 = [] ∧
    (TaskbarProgress.hide cfgTest r s).1.taskbar_list = false ∧
    (TaskbarProgress.show_ s).2 = [] ∧
    (TaskbarProgress.show_ s).1.taskbar_list = false ∧
    TaskbarProgress.release s = (s, []) := by
  have hct' : ¬total < completed := Nat.not_lt.mpr hct
  refine ⟨rfl, ?_, rfl, state_absent_no_calls cfgTest r s flags hs1,
    ?_,
    ((state_preserves_fields cfgTest r s flags).2.1).trans hs1,
    ((state_preserves_fields cfgTest r s flags).2.2.1).trans hs2,
    value_absent_no_calls cfgTest r s completed total hct' hs1,
    value_absent_prod_eq r s completed total hct' hs1,
    ((value_preserves_fields cfgTest r s completed total
      hct').2.1).trans hs1,
    ((value_preserves_fields cfgTest r s completed total
      hct').2.2.1).trans hs2,
    ?_, ?_, rfl, hs1, ?_⟩
  · simp only [fromHWND]
    rw [if_pos hneg]
    rfl
  · rw [state_absent_prod_eq r s flags hs1]
  · show (TaskbarProgress.set_progress_state cfgTest r s
      TBPF_NOPROGRESS).2 = []
    exact state_absent_no_calls cfgTest r s TBPF_NOPROGRESS hs1
  · show (TaskbarProgress.set_progress_state cfgTest r s
      TBPF_NOPROGRESS).1.taskbar_list = false
    exact ((state_preserves_fields cfgTest r s
      TBPF_NOPROGRESS).2.1).trans hs1
  · simp [TaskbarProgress.release, hs1, hs2]

theorem disabled_terminal_inert_witness :
    ((-1 : Int) < 0 ∧ inert_handle.taskbar_list = false ∧
      inert_handle.must_uninit_com = false ∧ (3 : Nat) ≤ 5) ∧
    (fromHWND none (-1) true = inert_handle ∧
    fromHWND (some 1) (-1) true = inert_handle ∧
    inert_handle =
      { hwnd := none
        taskbar_list := false
        current_state := TBPF_NOPROGRESS
        current_progress := (0, 0)
        must_uninit_com := false
        is_active := false } ∧
    (TaskbarProgress.set_progress_state true 7 inert_handle
      TBPF_NORMAL).2 = [] ∧
    (TaskbarProgress.set_progress_state false 7 inert_handle
      TBPF_NORMAL).1 = inert_handle ∧
    (TaskbarProgress.set_progress_state true 7 inert_handle
      TBPF_NORMAL).1.taskbar_list = false ∧
    (TaskbarProgress.set_progress_state true 7 inert_handle
      TBPF_NORMAL).1.must_uninit_com = false ∧
    ((TaskbarProgress.set_progress_value true 7 inert_handle 3 5).getD
      (inert_handle, [])).2 = [] ∧
    TaskbarProgress.set_progress_value false 7 inert_handle 3 5 =
      some (inert_handle, []) ∧
    ((TaskbarProgress.set_progress_value true 7 inert_handle 3 5).getD
      (inert_handle, [])).1.taskbar_list = false ∧
    ((TaskbarProgress.set_progress_value true 7 inert_handle 3 5).getD
      (inert_handle, [])).1.must_uninit_com = false ∧
    (TaskbarProgress.hide true 7 inert_handle).2 = [] ∧
    (TaskbarProgress.hide true 7 inert_handle).1.taskbar_list = false ∧
    (TaskbarProgress.show_ inert_handle).2 = [] ∧
    (TaskbarProgress.show_ inert_handle).1.taskbar_list = false ∧
    TaskbarProgress.release inert_handle = (inert_handle, [])) :=
  ⟨⟨by decide, by decide, by decide, by decide⟩,
    disabled_terminal_inert 1 (-1) true true 7 inert_handle TBPF_NORMAL
      3 5 (by decide) (by decide) (by decide) (by decide)⟩

/-- C7: on a handle whose remote indicator is absent, state and value
calls issue no remote call in any configuration and return without
fault; in the test/inert configuration they behave as automatic
successes, committing the requested state or value. -/
theorem absent_indicator_silent (cfgTest : Bool) (r : Int)
    (s : TaskbarProgress) (flags completed total : Nat)
    (hs : s.taskbar_list = false) (hct : completed ≤ total) :
    (TaskbarProgress.set_progress_state cfgTest r s flags).2 = [] ∧
    ((TaskbarProgress.set_progress_value cfgTest r s completed
        total).getD (s, [])).2 = [] ∧
    (TaskbarProgress.set_progress_value cfgTest r s completed
      total).isSome = true ∧
    (¬(flags = s.current_state ∨ s.is_active = false) →
      TaskbarProgress.set_progress_state true r s flags =
        ({ s with current_state := flags }, [])) ∧
    (¬(((completed, total) = s.current_progress ∧
          s.current_state ≠ TBPF_NOPROGRESS ∧
          s.current_state ≠ TBPF_INDETERMINATE) ∨
        s.is_active = false) →
      TaskbarProgress.set_progress_value true r s completed total =
        some (value_commit s completed total, [])) := by
  have hct' : ¬total < completed := Nat.not_lt.mpr hct
  exact ⟨state_absent_no_calls cfgTest r s flags hs,
    value_absent_no_calls cfgTest r s completed total hct' hs,
    value_isSome cfgTest r s completed total hct',
    fun h1 => state_absent_test r s flags h1 hs,
    fun h1 => value_absent_test r s completed total hct' h1 hs⟩

theorem absent_indicator_silent_witness :
    ((TaskbarProgress.show_ (fromHWND (some 1) 0 false)).1.taskbar_list =
        false ∧ (3 : Nat) ≤ 5) ∧
    ((TaskbarProgress.set_progress_state false 7
        (TaskbarProgress.show_ (fromHWND (some 1) 0 false)).1
        TBPF_NORMAL).2 = [] ∧
    ((TaskbarProgress.set_progress_value false 7
        (TaskbarProgress.show_ (fromHWND (some 1) 0 false)).1 3 5).getD
        ((TaskbarProgress.show_ (fromHWND (some 1) 0 false)).1, [])).2 =
      [] ∧
    (TaskbarProgress.set_progress_value false 7
      (TaskbarProgress.show_ (fromHWND (some 1) 0 false)).1 3
      5).isSome = true ∧
    (¬(TBPF_NORMAL =
        (TaskbarProgress.show_
          (fromHWND (some 1) 0 false)).1.current_state ∨
      (TaskbarProgress.show_ (fromHWND (some 1) 0 false)).1.is_active =
        false) →
      TaskbarProgress.set_progress_state true 7
          (TaskbarProgress.show_ (fromHWND (some 1) 0 false)).1
          TBPF_NORMAL =
        ({ (TaskbarProgress.show_ (fromHWND (some 1) 0 false)).1 with
            current_state := TBPF_NORMAL }, [])) ∧
    (¬(((3, 5) =
          (TaskbarProgress.show_
            (fromHWND (some 1) 0 false)).1.current_progress ∧
        (TaskbarProgress.show_
          (fromHWND (some 1) 0 false)).1.current_state ≠
          TBPF_NOPROGRESS ∧
        (TaskbarProgress.show_
          (fromHWND (some 1) 0 false)).1.current_state ≠
          TBPF_INDETERMINATE) ∨
        (TaskbarProgress.show_ (fromHWND (some 1) 0 false)).1.is_active =
          false) →
      TaskbarProgress.set_progress_value true 7
          (TaskbarProgress.show_ (fromHWND (some 1) 0 false)).1 3 5 =
        some (value_commit
          (TaskbarProgress.show_ (fromHWND (some 1) 0 false)).1 3 5,
          []))) :=
  ⟨⟨by decide, by decide⟩,
    absent_indicator_silent false 7
      (TaskbarProgress.show_ (fromHWND (some 1) 0 false)).1 TBPF_NORMAL
      3 5 (by decide) (by decide)⟩

/-- C10: the invariant "the window identifier is non-null only when the
remote indicator is held" is established by every construction path and
preserved by every operation. -/
theorem window_nonnull_only_with_indicator (h : Option Nat) (i : Int)
    (act cfgTest : Bool) (r : Int) (s : TaskbarProgress)
    (flags completed total : Nat) (hinv : hwnd_inv s)
    (hct : completed ≤ total) :
    hwnd_inv (fromHWND h i act) ∧
    hwnd_inv (TaskbarProgress.set_progress_state cfgTest r s flags).1 ∧
    hwnd_inv ((TaskbarProgress.set_progress_value cfgTest r s completed
      total).getD (s, [])).1 ∧
    hwnd_inv (TaskbarProgress.hide cfgTest r s).1 ∧
    hwnd_inv (TaskbarProgress.show_ s).1 ∧
    hwnd_inv (TaskbarProgress.release s).1 := by
  have hct' : ¬total < completed := Nat.not_lt.mpr hct
  unfold hwnd_inv at hinv ⊢
  refine ⟨?_, ?_, ?_, ?_, fun hne => hinv hne,
    release_preserves_inv s hinv⟩
  · cases h with
    | none => intro hne; exact absurd rfl hne
    | some w =>
      simp only [fromHWND]
      by_cases hi : i < 0
      · rw [if_pos hi]
        intro hne
        exact absurd rfl hne
      · rw [if_neg hi]
        cases act
        · intro hne
          exact absurd rfl hne
        · intro _
          rfl
  · intro hne
    have hf := state_preserves_fields cfgTest r s flags
    rw [hf.1] at hne
    rw [hf.2.1]
    exact hinv hne
  · intro hne
    have hf := value_preserves_fields cfgTest r s completed total hct'
    rw [hf.1] at hne
    rw [hf.2.1]
    exact hinv hne
  · intro hne
    have hf := state_preserves_fields cfgTest r s TBPF_NOPROGRESS
    show (TaskbarProgress.set_progress_state cfgTest r s
      TBPF_NOPROGRESS).1.taskbar_list = true
    rw [hf.2.1]
    refine hinv ?_
    rw [← hf.1]
    exact hne

theorem window_nonnull_only_with_indicator_witness :
    (hwnd_inv (fromHWND (some 1) 0 true) ∧ (3 : Nat) ≤ 5) ∧
    (hwnd_inv (fromHWND (some 2) (-1) false) ∧
    hwnd_inv (TaskbarProgress.set_progress_state false 7
      (fromHWND (some 1) 0 true) TBPF_NORMAL).1 ∧
    hwnd_inv ((TaskbarProgress.set_progress_value false 7
      (fromHWND (some 1) 0 true) 3 5).getD
      (fromHWND (some 1) 0 true, [])).1 ∧
    hwnd_inv (TaskbarProgress.hide false 7
      (fromHWND (some 1) 0 true)).1 ∧
    hwnd_inv (TaskbarProgress.show_ (fromHWND (some 1) 0 true)).1 ∧
    hwnd_inv (TaskbarProgress.release (fromHWND (some 1) 0 true)).1) :=
  ⟨⟨by decide, by decide⟩,
    window_nonnull_only_with_indicator (some 2) (-1) false false 7
      (fromHWND (some 1) 0 true) TBPF_NORMAL 3 5 (by decide)
      (by decide)⟩

end Czkawka
